import Mathlib

/-!
# Shallow embedding of the Screenshare signaling server

This file embeds the room/session coordinator of the Screenshare backend
(the Socket.IO signaling server, `src/unnamed/part_001`) in Lean 4 and
proves properties of its event handlers.

Modelling conventions:
* A live socket is an entry in `ServerState.conns`, keyed by its id.
  Room tables and viewer lists hold socket ids (the JS code holds socket
  object references; ids are unique per live socket and serve as proxies).
* Inbound payloads (`data`) are duck-typed JS objects; we model the fields
  the handlers read (`roomId`, `targetId`, `offer`, `answer`, `candidate`)
  as optional strings, where the empty string stands for a falsy value and
  a non-empty string for a truthy one.  `JSON.stringify` is abstracted by
  the two attributes the validator consumes: whether serialization
  succeeds (`serializes`) and the length of the resulting string (`size`).
* Outbound traffic is a list of transport instructions: point-to-point
  sends, room broadcasts (Socket.IO `io.to` / `socket.to`) and
  `closeConnection` instructions (`socket.disconnect()` on a viewer).
  Per the transport model, a closed connection's own disconnect event is
  delivered later as a separate event, so a handler step is atomic.
-/

/-- One inbound message body.  Fields mirror the properties the handlers
destructure from `data`; `serializes`/`size` abstract `JSON.stringify`. -/
structure InData where
  roomId : Option String := none
  targetId : Option String := none
  offer : Option String := none
  answer : Option String := none
  candidate : Option String := none
  serializes : Bool := true
  size : Nat := 0
deriving DecidableEq

/-- Per-socket server-side state: the `socket.roomId` and `socket.isHost`
properties set by the handlers (absent = `none` / `false`), and the set of
Socket.IO rooms the socket has joined (`socket.join` / `socket.leave`). -/
structure SocketData where
  roomId : Option String := none
  isHost : Bool := false
  joined : List String := []
deriving DecidableEq

/-- One entry of the `rooms` table: `rooms[roomId] = { host: socket, viewers: [...] }`. -/
structure Room where
  hostId : String
  viewers : List String
deriving DecidableEq

/-- The server's mutable state: the live sockets and the in-memory room table. -/
structure ServerState where
  conns : List (String × SocketData)
  rooms : List (String × Room)
deriving DecidableEq

/-- Lookup in an association list (JS object property read). -/
def lookupA {α : Type} : List (String × α) → String → Option α
  | [], _ => none
  | (k', v) :: rest, k => if k' = k then some v else lookupA rest k

/-- Insert or overwrite a key in an association list (JS object property write;
an existing key keeps its position, as JS objects keep key order). -/
def insertA {α : Type} : List (String × α) → String → α → List (String × α)
  | [], k, v => [(k, v)]
  | (k', v') :: rest, k, v =>
    if k' = k then (k, v) :: rest else (k', v') :: insertA rest k v

/-- Remove a key from an association list (JS `delete obj[k]`). -/
def eraseA {α : Type} : List (String × α) → String → List (String × α)
  | [], _ => []
  | (k', v') :: rest, k => if k' = k then rest else (k', v') :: eraseA rest k

/-- JS truthiness of an optional string field (`undefined` and `""` are falsy). -/
def truthyField (data : Option InData) (f : InData → Option String) : Option String :=
  match data with
  | none => none
  | some d =>
    match f d with
    | none => none
    | some s => if s = "" then none else some s

/-- Outbound payload shapes used by the server. -/
inductive OutPayload where
  | empty
  | errorMsg (msg : String)
  | roomIdP (roomId : String)
  | countP (count : Nat)
  | viewerIdP (viewerId : String)
  | relayP (payload : String) (fromId : String)
deriving DecidableEq

/-- A delivery instruction handed to the transport layer. -/
inductive Output where
  | send (dest : String) (event : String) (payload : OutPayload)
  | broadcastTo (ioRoom : String) (excludeId : Option String) (event : String)
      (payload : OutPayload)
  | close (id : String)
deriving DecidableEq

/-- `const allowedEvents = [...]` from the source. -/
def allowedEvents : List String :=
  ["start-share", "join-view", "offer", "answer", "ice", "ice-candidate",
   "stop-share", "get-available"]

/-- `validateEvent(event, data)` from the source: returns `some errorMessage`
when invalid (`{ valid: false, error }`), `none` when valid.  A `null`-ish
payload gets message size 0; a payload whose serialization throws is
`Malformed payload`; a serialized length over 65536 is `Message too large`. -/
def validateEvent (event : String) (data : Option InData) : Option String :=
  if !(allowedEvents.contains event) then some "Invalid event type"
  else
    match data with
    | none => if (0 : Nat) > 65536 then some "Message too large" else none
    | some d =>
      if !d.serializes then some "Malformed payload"
      else if d.size > 65536 then some "Message too large"
      else none

/-- `socket.join(r)`: Socket.IO room join, idempotent. -/
def joinRoom (joined : List String) (r : String) : List String :=
  if joined.contains r then joined else joined ++ [r]

/-- `viewer.leave(r)` applied through the connection table: a dead socket is a
no-op (the source wraps the call in try/catch). -/
def leaveRoom (conns : List (String × SocketData)) (v r : String) :
    List (String × SocketData) :=
  match lookupA conns v with
  | none => conns
  | some vd => insertA conns v { vd with joined := vd.joined.erase r }

/-- `socket.on('start-share')`: validate, default the room id to the socket id,
create/overwrite the room with this socket as host and no viewers, join the
Socket.IO room, set `roomId`/`isHost`, broadcast `room-created` to the room. -/
def handleStartShare (st : ServerState) (sid : String) (data : Option InData) :
    ServerState × List Output :=
  match lookupA st.conns sid with
  | none => (st, [])
  | some sd =>
    match validateEvent "start-share" data with
    | some err => (st, [Output.send sid "error" (.errorMsg err)])
    | none =>
      let rid := (truthyField data InData.roomId).getD sid
      ({ rooms := insertA st.rooms rid { hostId := sid, viewers := [] },
         conns := insertA st.conns sid
           { sd with roomId := some rid, isHost := true,
                     joined := joinRoom sd.joined rid } },
       [Output.broadcastTo rid none "room-created" (.roomIdP rid)])

/-- `socket.on('stop-share')`: when the socket has a room id, the room exists
and the socket's `isHost` flag is set, broadcast `host-stopped` to the room,
make every listed viewer leave the Socket.IO room, and delete the room;
otherwise a silent no-op. -/
def handleStopShare (st : ServerState) (sid : String) : ServerState × List Output :=
  match lookupA st.conns sid with
  | none => (st, [])
  | some sd =>
    match sd.roomId with
    | none => (st, [])
    | some r =>
      if r = "" then (st, [])
      else
        match lookupA st.rooms r with
        | none => (st, [])
        | some room =>
          if sd.isHost then
            ({ conns := room.viewers.foldl (fun cs v => leaveRoom cs v r) st.conns,
               rooms := eraseA st.rooms r },
             [Output.broadcastTo r none "host-stopped" OutPayload.empty])
          else (st, [])

/-- `socket.on('get-available')`: reply to the sender with the number of keys
of the room table. -/
def handleGetAvailable (st : ServerState) (sid : String) : ServerState × List Output :=
  match lookupA st.conns sid with
  | none => (st, [])
  | some _ => (st, [Output.send sid "available-count" (.countP st.rooms.length)])

/-- `socket.on('join-view')`: validate, require a truthy `roomId`
(`Missing roomId`), require the room to exist (`Room not found`), then push
the socket onto the room's viewer list, join the Socket.IO room, set
`roomId`/`isHost`, broadcast `viewer-joined` to the room and reply
`view-joined` to the sender. -/
def handleJoinView (st : ServerState) (sid : String) (data : Option InData) :
    ServerState × List Output :=
  match lookupA st.conns sid with
  | none => (st, [])
  | some sd =>
    match validateEvent "join-view" data with
    | some err => (st, [Output.send sid "error" (.errorMsg err)])
    | none =>
      match truthyField data InData.roomId with
      | none => (st, [Output.send sid "error" (.errorMsg "Missing roomId")])
      | some r =>
        match lookupA st.rooms r with
        | none => (st, [Output.send sid "error" (.errorMsg "Room not found")])
        | some room =>
          ({ rooms := insertA st.rooms r { room with viewers := room.viewers ++ [sid] },
             conns := insertA st.conns sid
               { sd with roomId := some r, isHost := false,
                         joined := joinRoom sd.joined r } },
           [Output.broadcastTo r none "viewer-joined" (.viewerIdP sid),
            Output.send sid "view-joined" (.roomIdP r)])

/-- The four relay events.  Their handlers in the source are textually
identical except for the inbound event name, the payload field read from
`data`, the outbound event name and the error message; those four spots are
factored out below. -/
inductive RelayKind where
  | offer
  | answer
  | ice
  | iceCandidate
deriving DecidableEq

/-- Payload field destructured by each relay handler. -/
def relayField : RelayKind → InData → Option String
  | .offer => InData.offer
  | .answer => InData.answer
  | .ice => InData.candidate
  | .iceCandidate => InData.candidate

/-- Inbound event name of each relay handler (passed to `validateEvent`). -/
def relayInName : RelayKind → String
  | .offer => "offer"
  | .answer => "answer"
  | .ice => "ice"
  | .iceCandidate => "ice-candidate"

/-- Outbound event name each relay handler emits (`ice-candidate` relays as
`ice`). -/
def relayOutName : RelayKind → String
  | .offer => "offer"
  | .answer => "answer"
  | .ice => "ice"
  | .iceCandidate => "ice"

/-- Error message of each relay handler's invalid-payload branch. -/
def relayErr : RelayKind → String
  | .offer => "Invalid offer payload"
  | .answer => "Invalid answer payload"
  | .ice => "Invalid ICE payload"
  | .iceCandidate => "Invalid ICE payload"

/-- `socket.on('offer' | 'answer' | 'ice' | 'ice-candidate')`: validate; if
both `targetId` and the payload field are truthy, look up the target socket
and deliver the relabeled payload to it alone when it exists and its
`roomId` strictly equals the sender's, else deliver nothing; otherwise fall
back to a room broadcast (sender excluded) when the sender has a room and
the payload is truthy, else reply with the invalid-payload error. -/
def handleRelay (k : RelayKind) (st : ServerState) (sid : String)
    (data : Option InData) : ServerState × List Output :=
  match lookupA st.conns sid with
  | none => (st, [])
  | some sd =>
    match validateEvent (relayInName k) data with
    | some err => (st, [Output.send sid "error" (.errorMsg err)])
    | none =>
      match truthyField data InData.targetId, truthyField data (relayField k) with
      | some t, some p =>
        match lookupA st.conns t with
        | none => (st, [])
        | some td =>
          if td.roomId = sd.roomId then
            (st, [Output.send t (relayOutName k) (.relayP p sid)])
          else (st, [])
      | _, pOpt =>
        match sd.roomId, pOpt with
        | some r, some p =>
          if r = "" then (st, [Output.send sid "error" (.errorMsg (relayErr k))])
          else (st, [Output.broadcastTo r (some sid) (relayOutName k) (.relayP p sid)])
        | _, _ => (st, [Output.send sid "error" (.errorMsg (relayErr k))])

/-- Outputs of the host-disconnect cascade: each listed viewer receives
`host-disconnected` and then a close instruction (`viewer.disconnect()`). -/
def hostCascadeOuts : List String → List Output
  | [] => []
  | v :: rest =>
    Output.send v "host-disconnected" OutPayload.empty :: Output.close v :: hostCascadeOuts rest

/-- `socket.on('disconnect')`: when the socket has a room id and the room
exists, either run the host cascade (notify and close every listed viewer,
delete the room) when `isHost` is set, or splice the socket out of the
viewer list (first occurrence, no-op when absent) and notify the room's
host with `viewer-left`.  The transport then drops the socket from the
connection table. -/
def handleDisconnect (st : ServerState) (sid : String) : ServerState × List Output :=
  match lookupA st.conns sid with
  | none => (st, [])
  | some sd =>
    match sd.roomId with
    | none => ({ conns := eraseA st.conns sid, rooms := st.rooms }, [])
    | some r =>
      if r = "" then ({ conns := eraseA st.conns sid, rooms := st.rooms }, [])
      else
        match lookupA st.rooms r with
        | none => ({ conns := eraseA st.conns sid, rooms := st.rooms }, [])
        | some room =>
          if sd.isHost then
            ({ conns := eraseA st.conns sid, rooms := eraseA st.rooms r },
             hostCascadeOuts room.viewers)
          else
            if room.viewers.contains sid then
              ({ conns := eraseA st.conns sid,
                 rooms := insertA st.rooms r
                   { room with viewers := room.viewers.erase sid } },
               [Output.send room.hostId "viewer-left" (.viewerIdP sid)])
            else ({ conns := eraseA st.conns sid, rooms := st.rooms }, [])

/-- One inbound event as delivered by the transport layer. -/
inductive Event where
  | connect (sid : String)
  | startShare (sid : String) (data : Option InData)
  | joinView (sid : String) (data : Option InData)
  | stopShare (sid : String)
  | getAvailable (sid : String)
  | relay (k : RelayKind) (sid : String) (data : Option InData)
  | disconnect (sid : String)
deriving DecidableEq

/-- The connection the event originates from. -/
def sender : Event → String
  | .connect sid => sid
  | .startShare sid _ => sid
  | .joinView sid _ => sid
  | .stopShare sid => sid
  | .getAvailable sid => sid
  | .relay _ sid _ => sid
  | .disconnect sid => sid

/-- Dispatch one inbound event to its handler.  `connect` registers a fresh
socket with no `roomId`, no `isHost` flag and no joined rooms. -/
def stepEvent (st : ServerState) : Event → ServerState × List Output
  | .connect sid =>
    let fresh : SocketData := { roomId := none, isHost := false, joined := [] }
    ({ st with conns := insertA st.conns sid fresh }, [])
  | .startShare sid data => handleStartShare st sid data
  | .joinView sid data => handleJoinView st sid data
  | .stopShare sid => handleStopShare st sid
  | .getAvailable sid => handleGetAvailable st sid
  | .relay k sid data => handleRelay k st sid data
  | .disconnect sid => handleDisconnect st sid

/-- The server starts with no sockets and no rooms. -/
def initState : ServerState := { conns := [], rooms := [] }

/-- Run a sequence of inbound events from the initial state. -/
def runTrace (events : List Event) : ServerState :=
  events.foldl (fun st e => (stepEvent st e).1) initState

/-- Number of rooms in the table whose host connection is still live
(the spec's phrase: rooms with a live host). -/
def liveHostRooms (st : ServerState) : Nat :=
  (st.rooms.filter (fun p => (lookupA st.conns p.2.hostId).isSome)).length

/-- Lookup after overwrite at the same key. -/
theorem lookupA_insertA_self {α : Type} (l : List (String × α)) (k : String) (v : α) :
    lookupA (insertA l k v) k = some v := by
  induction l with
  | nil => simp [insertA, lookupA]
  | cons hd tl ih =>
    obtain ⟨k', v'⟩ := hd
    by_cases h : k' = k <;> simp [insertA, lookupA, h, ih]

/-- Lookup after overwrite at a different key. -/
theorem lookupA_insertA_ne {α : Type} (l : List (String × α)) (k k' : String) (v : α)
    (h : k' ≠ k) : lookupA (insertA l k v) k' = lookupA l k' := by
  induction l with
  | nil => simp [insertA, lookupA, Ne.symm h]
  | cons hd tl ih =>
    obtain ⟨a, b⟩ := hd
    by_cases ha : a = k
    · subst ha; simp [insertA, lookupA, Ne.symm h]
    · simp [insertA, lookupA, ha, ih]

/-- A key absent from the key list is not found. -/
theorem lookupA_eq_none_of_not_mem {α : Type} (l : List (String × α)) (k : String)
    (h : k ∉ l.map Prod.fst) : lookupA l k = none := by
  induction l with
  | nil => rfl
  | cons hd tl ih =>
    obtain ⟨a, b⟩ := hd
    simp only [List.map_cons, List.mem_cons] at h
    push_neg at h
    simp [lookupA, Ne.symm h.1, ih h.2]

/-- Deleting a key removes it, provided the key list has no duplicates. -/
theorem lookupA_eraseA_self {α : Type} (l : List (String × α)) (k : String)
    (h : (l.map Prod.fst).Nodup) : lookupA (eraseA l k) k = none := by
  induction l with
  | nil => rfl
  | cons hd tl ih =>
    obtain ⟨a, b⟩ := hd
    simp only [List.map_cons, List.nodup_cons] at h
    by_cases ha : a = k
    · subst ha
      simp [eraseA, lookupA_eq_none_of_not_mem tl a h.1]
    · simp [eraseA, lookupA, ha, ih h.2]

/-- C4: validation rejects event kinds outside the allow-list with
`Invalid event type`, rejects payloads whose serialization fails with
`Malformed payload`, rejects payloads serializing to a size greater than
65536 with `Message too large`, and accepts a payload of an allowed kind
serializing to at most 65536. -/
theorem validateEvent_correct (event : String) (data : Option InData) :
    (event ∉ allowedEvents →
      validateEvent event data = some "Invalid event type") ∧
    (∀ d, event ∈ allowedEvents → data = some d →
      d.serializes = false → validateEvent event data = some "Malformed payload") ∧
    (∀ d, event ∈ allowedEvents → data = some d →
      d.serializes = true → d.size > 65536 →
      validateEvent event data = some "Message too large") ∧
    (∀ d, event ∈ allowedEvents → data = some d →
      d.serializes = true → d.size ≤ 65536 → validateEvent event data = none) := by
  refine ⟨?_, ?_, ?_, ?_⟩
  · intro h
    simp [validateEvent, h]
  · intro d hc hd hs
    subst hd
    simp [validateEvent, hc, hs]
  · intro d hc hd hs hsize
    subst hd
    simp [validateEvent, hc, hs, hsize]
  · intro d hc hd hs hsize
    subst hd
    simp [validateEvent, hc, hs, Nat.not_lt.mpr hsize]

/-- Witness for C4: each branch of the validator evaluated at a concrete
input. -/
theorem validateEvent_correct_witness :
    validateEvent "unknown-kind" none = some "Invalid event type" ∧
    validateEvent "offer" (some { serializes := false }) = some "Malformed payload" ∧
    validateEvent "offer" (some { serializes := true, size := 65537 }) =
      some "Message too large" ∧
    validateEvent "offer" (some { serializes := true, size := 65536 }) = none := by
  refine ⟨?_, ?_, ?_, ?_⟩
  · exact (validateEvent_correct "unknown-kind" none).1 (by decide)
  · exact (validateEvent_correct "offer" (some { serializes := false })).2.1
      { serializes := false } (by decide) rfl rfl
  · exact (validateEvent_correct "offer"
      (some { serializes := true, size := 65537 })).2.2.1
      { serializes := true, size := 65537 } (by decide) rfl rfl (by decide)
  · exact (validateEvent_correct "offer"
      (some { serializes := true, size := 65536 })).2.2.2
      { serializes := true, size := 65536 } (by decide) rfl rfl (by decide)

/-- C1: for a relay event carrying a truthy `targetId` and a truthy payload
field, the relabeled payload goes to the target alone exactly when the
target connection exists and its `roomId` equals the sender's; otherwise
nothing is delivered and no error is sent, and the state never changes. -/
theorem targetedRelay_correct (k : RelayKind) (st : ServerState)
    (sid t p : String) (data : Option InData) (sd : SocketData)
    (hs : lookupA st.conns sid = some sd)
    (hv : validateEvent (relayInName k) data = none)
    (ht : truthyField data InData.targetId = some t)
    (hp : truthyField data (relayField k) = some p) :
    (stepEvent st (.relay k sid data)).1 = st ∧
    (stepEvent st (.relay k sid data)).2 =
      (match lookupA st.conns t with
       | some td =>
         if td.roomId = sd.roomId then
           [Output.send t (relayOutName k) (.relayP p sid)]
         else []
       | none => []) := by
  cases hl : lookupA st.conns t with
  | none => simp [stepEvent, handleRelay, hs, hv, ht, hp, hl]
  | some td =>
    by_cases he : td.roomId = sd.roomId <;>
      simp [stepEvent, handleRelay, hs, hv, ht, hp, hl, he]

/-- Witness for C1: host `A` and viewer `C` share room `r`, stranger `D`
does not; an offer targeted at `C` is delivered to `C` alone, one targeted
at `D` is dropped. -/
theorem targetedRelay_correct_witness :
    (stepEvent
      { conns := [("A", { roomId := some "r", isHost := true, joined := ["r"] }),
                  ("C", { roomId := some "r", isHost := false, joined := ["r"] }),
                  ("D", { roomId := none, isHost := false, joined := [] })],
        rooms := [("r", { hostId := "A", viewers := ["C"] })] }
      (.relay .offer "A" (some { targetId := some "C", offer := some "x" }))).2 =
      [Output.send "C" "offer" (.relayP "x" "A")] ∧
    (stepEvent
      { conns := [("A", { roomId := some "r", isHost := true, joined := ["r"] }),
                  ("C", { roomId := some "r", isHost := false, joined := ["r"] }),
                  ("D", { roomId := none, isHost := false, joined := [] })],
        rooms := [("r", { hostId := "A", viewers := ["C"] })] }
      (.relay .offer "A" (some { targetId := some "D", offer := some "x" }))).2 = [] := by
  constructor
  · have h := targetedRelay_correct RelayKind.offer
      { conns := [("A", { roomId := some "r", isHost := true, joined := ["r"] }),
                  ("C", { roomId := some "r", isHost := false, joined := ["r"] }),
                  ("D", { roomId := none, isHost := false, joined := [] })],
        rooms := [("r", { hostId := "A", viewers := ["C"] })] }
      "A" "C" "x" (some { targetId := some "C", offer := some "x" })
      { roomId := some "r", isHost := true, joined := ["r"] }
      (by decide) (by decide) (by decide) (by decide)
    exact h.2
  · have h := targetedRelay_correct RelayKind.offer
      { conns := [("A", { roomId := some "r", isHost := true, joined := ["r"] }),
                  ("C", { roomId := some "r", isHost := false, joined := ["r"] }),
                  ("D", { roomId := none, isHost := false, joined := [] })],
        rooms := [("r", { hostId := "A", viewers := ["C"] })] }
      "A" "D" "x" (some { targetId := some "D", offer := some "x" })
      { roomId := some "r", isHost := true, joined := ["r"] }
      (by decide) (by decide) (by decide) (by decide)
    exact h.2

/-- C2: a validated `start-share` maps the (possibly defaulted) room id to a
fresh room hosted by the sender with no viewers, overwrites only that table
entry, makes the sender a host with that room id, and broadcasts
`room-created` to the room. -/
theorem startShare_correct (st : ServerState) (sid rid : String)
    (data : Option InData) (sd : SocketData)
    (hs : lookupA st.conns sid = some sd)
    (hv : validateEvent "start-share" data = none)
    (hr : rid = (truthyField data InData.roomId).getD sid) :
    lookupA (stepEvent st (.startShare sid data)).1.rooms rid =
      some { hostId := sid, viewers := [] } ∧
    (∀ r', r' ≠ rid →
      lookupA (stepEvent st (.startShare sid data)).1.rooms r' =
        lookupA st.rooms r') ∧
    lookupA (stepEvent st (.startShare sid data)).1.conns sid =
      some { sd with roomId := some rid, isHost := true,
                     joined := joinRoom sd.joined rid } ∧
    (stepEvent st (.startShare sid data)).2 =
      [Output.broadcastTo rid none "room-created" (.roomIdP rid)] := by
  subst hr
  refine ⟨?_, fun r' h => ?_, ?_, ?_⟩
  · simp [stepEvent, handleStartShare, hs, hv, lookupA_insertA_self]
  · simp only [stepEvent, handleStartShare, hs, hv]
    exact lookupA_insertA_ne _ _ _ _ h
  · simp [stepEvent, handleStartShare, hs, hv, lookupA_insertA_self]
  · simp [stepEvent, handleStartShare, hs, hv]

/-- Witness for C2: connection `B` overwrites room `r` previously hosted by
`A`; afterwards `r` is hosted by `B` with no viewers, `B` is a host of `r`,
and `room-created` is broadcast. -/
theorem startShare_correct_witness :
    lookupA (stepEvent
      { conns := [("A", { roomId := some "r", isHost := true, joined := ["r"] }),
                  ("B", { roomId := none, isHost := false, joined := [] })],
        rooms := [("r", { hostId := "A", viewers := ["C"] })] }
      (.startShare "B" (some { roomId := some "r" }))).1.rooms "r" =
      some { hostId := "B", viewers := [] } ∧
    lookupA (stepEvent
      { conns := [("A", { roomId := some "r", isHost := true, joined := ["r"] }),
                  ("B", { roomId := none, isHost := false, joined := [] })],
        rooms := [("r", { hostId := "A", viewers := ["C"] })] }
      (.startShare "B" (some { roomId := some "r" }))).1.conns "B" =
      some { roomId := some "r", isHost := true, joined := ["r"] } ∧
    (stepEvent
      { conns := [("A", { roomId := some "r", isHost := true, joined := ["r"] }),
                  ("B", { roomId := none, isHost := false, joined := [] })],
        rooms := [("r", { hostId := "A", viewers := ["C"] })] }
      (.startShare "B" (some { roomId := some "r" }))).2 =
      [Output.broadcastTo "r" none "room-created" (.roomIdP "r")] := by
  have h := startShare_correct
    { conns := [("A", { roomId := some "r", isHost := true, joined := ["r"] }),
                ("B", { roomId := none, isHost := false, joined := [] })],
      rooms := [("r", { hostId := "A", viewers := ["C"] })] }
    "B" "r" (some { roomId := some "r" })
    { roomId := none, isHost := false, joined := [] }
    (by decide) (by decide) (by decide)
  exact ⟨h.1, h.2.2.1, h.2.2.2⟩

/-- C3: a validated `join-view` with a truthy room id either reports
`Room not found` and changes nothing when the room is missing, or appends
the sender to the room's viewer list, makes it a viewer of the room,
broadcasts `viewer-joined` to the room and replies `view-joined`. -/
theorem joinView_correct (st : ServerState) (sid r : String)
    (data : Option InData) (sd : SocketData)
    (hs : lookupA st.conns sid = some sd)
    (hv : validateEvent "join-view" data = none)
    (hr : truthyField data InData.roomId = some r) :
    (lookupA st.rooms r = none →
      stepEvent st (.joinView sid data) =
        (st, [Output.send sid "error" (.errorMsg "Room not found")])) ∧
    (∀ room, lookupA st.rooms r = some room →
      lookupA (stepEvent st (.joinView sid data)).1.rooms r =
        some { room with viewers := room.viewers ++ [sid] } ∧
      lookupA (stepEvent st (.joinView sid data)).1.conns sid =
        some { sd with roomId := some r, isHost := false,
                       joined := joinRoom sd.joined r } ∧
      (stepEvent st (.joinView sid data)).2 =
        [Output.broadcastTo r none "viewer-joined" (.viewerIdP sid),
         Output.send sid "view-joined" (.roomIdP r)]) := by
  constructor
  · intro hnone
    simp [stepEvent, handleJoinView, hs, hv, hr, hnone]
  · intro room hroom
    refine ⟨?_, ?_, ?_⟩ <;>
      simp [stepEvent, handleJoinView, hs, hv, hr, hroom, lookupA_insertA_self]

/-- Witness for C3: joining existing room `r` appends the sender and emits
both notifications; joining the absent room `nope` yields `Room not found`
and leaves the state unchanged. -/
theorem joinView_correct_witness :
    (lookupA (stepEvent
      { conns := [("A", { roomId := some "r", isHost := true, joined := ["r"] }),
                  ("C", { roomId := none, isHost := false, joined := [] })],
        rooms := [("r", { hostId := "A", viewers := [] })] }
      (.joinView "C" (some { roomId := some "r" }))).1.rooms "r" =
      some { hostId := "A", viewers := ["C"] } ∧
    (stepEvent
      { conns := [("A", { roomId := some "r", isHost := true, joined := ["r"] }),
                  ("C", { roomId := none, isHost := false, joined := [] })],
        rooms := [("r", { hostId := "A", viewers := [] })] }
      (.joinView "C" (some { roomId := some "r" }))).2 =
      [Output.broadcastTo "r" none "viewer-joined" (.viewerIdP "C"),
       Output.send "C" "view-joined" (.roomIdP "r")]) ∧
    stepEvent
      { conns := [("A", { roomId := some "r", isHost := true, joined := ["r"] }),
                  ("C", { roomId := none, isHost := false, joined := [] })],
        rooms := [("r", { hostId := "A", viewers := [] })] }
      (.joinView "C" (some { roomId := some "nope" })) =
      ({ conns := [("A", { roomId := some "r", isHost := true, joined := ["r"] }),
                   ("C", { roomId := none, isHost := false, joined := [] })],
         rooms := [("r", { hostId := "A", viewers := [] })] },
       [Output.send "C" "error" (.errorMsg "Room not found")]) := by
  constructor
  · have h := (joinView_correct
      { conns := [("A", { roomId := some "r", isHost := true, joined := ["r"] }),
                  ("C", { roomId := none, isHost := false, joined := [] })],
        rooms := [("r", { hostId := "A", viewers := [] })] }
      "C" "r" (some { roomId := some "r" })
      { roomId := none, isHost := false, joined := [] }
      (by decide) (by decide) (by decide)).2
      { hostId := "A", viewers := [] } (by decide)
    exact ⟨h.1, h.2.2⟩
  · exact (joinView_correct
      { conns := [("A", { roomId := some "r", isHost := true, joined := ["r"] }),
                  ("C", { roomId := none, isHost := false, joined := [] })],
        rooms := [("r", { hostId := "A", viewers := [] })] }
      "C" "nope" (some { roomId := some "nope" })
      { roomId := none, isHost := false, joined := [] }
      (by decide) (by decide) (by decide)).1 (by decide)

/-- No `error` notification ever appears among the host-disconnect cascade
outputs. -/
theorem errorSend_not_mem_hostCascadeOuts (vs : List String) (x m : String) :
    Output.send x "error" (OutPayload.errorMsg m) ∉ hostCascadeOuts vs := by
  induction vs with
  | nil => simp [hostCascadeOuts]
  | cons v rest ih => simp [hostCascadeOuts, ih]

/-- C5: whenever handling an inbound event emits an `error` notification to
the sender, the handler leaves the whole server state (room table and every
connection's fields) unchanged and does not close the sender's connection. -/
theorem errorNotified_state_unchanged (st : ServerState) (e : Event) (m : String)
    (h : Output.send (sender e) "error" (OutPayload.errorMsg m) ∈ (stepEvent st e).2) :
    (stepEvent st e).1 = st ∧ Output.close (sender e) ∉ (stepEvent st e).2 := by
  cases e with
  | connect sid => simp [stepEvent] at h
  | startShare sid data =>
    simp only [stepEvent, sender] at h ⊢
    revert h
    unfold handleStartShare
    repeat' split
    all_goals intro h
    all_goals first
      | exact ⟨rfl, by simp⟩
      | simp at h
  | joinView sid data =>
    simp only [stepEvent, sender] at h ⊢
    revert h
    unfold handleJoinView
    repeat' split
    all_goals intro h
    all_goals first
      | exact ⟨rfl, by simp⟩
      | simp at h
  | stopShare sid =>
    simp only [stepEvent, sender] at h ⊢
    revert h
    unfold handleStopShare
    repeat' split
    all_goals intro h
    all_goals simp at h
  | getAvailable sid =>
    simp only [stepEvent, sender] at h ⊢
    revert h
    unfold handleGetAvailable
    repeat' split
    all_goals intro h
    all_goals simp at h
  | relay k sid data =>
    simp only [stepEvent, sender] at h ⊢
    revert h
    unfold handleRelay
    repeat' split
    all_goals intro h
    all_goals exact ⟨rfl, by simp⟩
  | disconnect sid =>
    simp only [stepEvent, sender] at h ⊢
    revert h
    unfold handleDisconnect
    repeat' split
    all_goals intro h
    all_goals first
      | exact absurd h (errorSend_not_mem_hostCascadeOuts _ _ _)
      | exact absurd h (by simp)

/-- Witness for C5: `join-view` without a payload yields `Missing roomId`;
the state is untouched and the sender is not closed. -/
theorem errorNotified_state_unchanged_witness :
    (stepEvent
      { conns := [("A", { roomId := none, isHost := false, joined := [] })],
        rooms := [] } (.joinView "A" none)).1 =
      { conns := [("A", { roomId := none, isHost := false, joined := [] })],
        rooms := [] } ∧
    Output.close "A" ∉ (stepEvent
      { conns := [("A", { roomId := none, isHost := false, joined := [] })],
        rooms := [] } (.joinView "A" none)).2 :=
  errorNotified_state_unchanged
    { conns := [("A", { roomId := none, isHost := false, joined := [] })],
      rooms := [] }
    (.joinView "A" none) "Missing roomId" (by decide)

/-- Every listed viewer gets both the `host-disconnected` notification and a
close instruction in the cascade outputs. -/
theorem mem_hostCascadeOuts_of_mem (vs : List String) (v : String) (hv : v ∈ vs) :
    Output.send v "host-disconnected" OutPayload.empty ∈ hostCascadeOuts vs ∧
    Output.close v ∈ hostCascadeOuts vs := by
  induction vs with
  | nil => cases hv
  | cons w rest ih =>
    rcases List.mem_cons.mp hv with h | h
    · subst h
      simp [hostCascadeOuts]
    · have hw := ih h
      simp only [hostCascadeOuts, List.mem_cons]
      exact ⟨Or.inr (Or.inr hw.1), Or.inr (Or.inr hw.2)⟩

/-- Counterexample to C6 as stated: after `H` starts share for room `q1` and
then again for room `q2`, the disconnect of `H` — the host connection of
`q1` — leaves room `q1` in the table even though `H` is gone. -/
theorem hostDisconnect_claim_counterexample :
    lookupA (runTrace [Event.connect "H",
      Event.startShare "H" (some { roomId := some "q1" }),
      Event.startShare "H" (some { roomId := some "q2" }),
      Event.disconnect "H"]).rooms "q1" =
      some { hostId := "H", viewers := [] } ∧
    lookupA (runTrace [Event.connect "H",
      Event.startShare "H" (some { roomId := some "q1" }),
      Event.startShare "H" (some { roomId := some "q2" }),
      Event.disconnect "H"]).conns "H" = none := by
  decide

/-- C6 (amended): for every room `R` whose host connection `A` — with
`A.roomId = R` and role flag `Host` — disconnects, every viewer in `R`'s
viewer list receives `host-disconnected` and a close instruction, and `R`
is removed from the room table. -/
theorem hostDisconnect_cleanup (st : ServerState) (a r : String) (sd : SocketData)
    (room : Room)
    (hs : lookupA st.conns a = some sd)
    (hr : sd.roomId = some r) (hne : r ≠ "") (hh : sd.isHost = true)
    (hrm : lookupA st.rooms r = some room) (_hhost : room.hostId = a)
    (hnd : (st.rooms.map Prod.fst).Nodup) :
    (stepEvent st (.disconnect a)).2 = hostCascadeOuts room.viewers ∧
    (∀ v ∈ room.viewers,
      Output.send v "host-disconnected" OutPayload.empty ∈
        (stepEvent st (.disconnect a)).2 ∧
      Output.close v ∈ (stepEvent st (.disconnect a)).2) ∧
    lookupA (stepEvent st (.disconnect a)).1.rooms r = none := by
  have hstep : stepEvent st (.disconnect a) =
      ({ conns := eraseA st.conns a, rooms := eraseA st.rooms r },
       hostCascadeOuts room.viewers) := by
    simp [stepEvent, handleDisconnect, hs, hr, hne, hrm, hh]
  refine ⟨by rw [hstep], ?_, ?_⟩
  · intro v hv
    rw [hstep]
    exact mem_hostCascadeOuts_of_mem room.viewers v hv
  · rw [hstep]
    exact lookupA_eraseA_self st.rooms r hnd

/-- Witness for C6 (amended): host `H` of room `r` with viewer `V`
disconnects; `V` is notified and closed and `r` is gone. -/
theorem hostDisconnect_cleanup_witness :
    Output.send "V" "host-disconnected" OutPayload.empty ∈
      (stepEvent
        { conns := [("H", { roomId := some "r", isHost := true, joined := ["r"] }),
                    ("V", { roomId := some "r", isHost := false, joined := ["r"] })],
          rooms := [("r", { hostId := "H", viewers := ["V"] })] }
        (.disconnect "H")).2 ∧
    Output.close "V" ∈
      (stepEvent
        { conns := [("H", { roomId := some "r", isHost := true, joined := ["r"] }),
                    ("V", { roomId := some "r", isHost := false, joined := ["r"] })],
          rooms := [("r", { hostId := "H", viewers := ["V"] })] }
        (.disconnect "H")).2 ∧
    lookupA (stepEvent
        { conns := [("H", { roomId := some "r", isHost := true, joined := ["r"] }),
                    ("V", { roomId := some "r", isHost := false, joined := ["r"] })],
          rooms := [("r", { hostId := "H", viewers := ["V"] })] }
        (.disconnect "H")).1.rooms "r" = none := by
  have h := hostDisconnect_cleanup
    { conns := [("H", { roomId := some "r", isHost := true, joined := ["r"] }),
                ("V", { roomId := some "r", isHost := false, joined := ["r"] })],
      rooms := [("r", { hostId := "H", viewers := ["V"] })] }
    "H" "r" { roomId := some "r", isHost := true, joined := ["r"] }
    { hostId := "H", viewers := ["V"] }
    (by decide) rfl (by decide) rfl (by decide) rfl (by decide)
  exact ⟨(h.2.1 "V" (by decide)).1, (h.2.1 "V" (by decide)).2, h.2.2⟩

/-- C7: when a viewer `C` of room `R` (with `C.roomId = R` and no host
flag) disconnects, then if `C` is listed in `R`'s viewers it is spliced out
(first occurrence) and the room's host is sent `viewer-left{viewerId=C}`,
while if `C` is not present the room table is completely untouched and no
message is sent; either way `R` stays in the table with its host
unchanged. -/
theorem viewerDisconnect_correct (st : ServerState) (c r : String) (sd : SocketData)
    (room : Room)
    (hs : lookupA st.conns c = some sd)
    (hr : sd.roomId = some r) (hne : r ≠ "") (hh : sd.isHost = false)
    (hrm : lookupA st.rooms r = some room) :
    (c ∈ room.viewers →
      lookupA (stepEvent st (.disconnect c)).1.rooms r =
        some { room with viewers := room.viewers.erase c } ∧
      (stepEvent st (.disconnect c)).2 =
        [Output.send room.hostId "viewer-left" (.viewerIdP c)]) ∧
    (c ∉ room.viewers →
      (stepEvent st (.disconnect c)).1.rooms = st.rooms ∧
      (stepEvent st (.disconnect c)).2 = []) := by
  constructor
  · intro hin
    constructor <;>
      simp [stepEvent, handleDisconnect, hs, hr, hne, hh, hrm, hin,
        lookupA_insertA_self]
  · intro hout
    constructor <;>
      simp [stepEvent, handleDisconnect, hs, hr, hne, hh, hrm, hout]

/-- Witness for C7, both branches: viewer `C` of room `r` hosted by `A`
disconnects — the viewer list drops `C` once, `A` is notified, the room
survives with `A` as host; and a viewer-role connection `C` of `r` that is
absent from the viewer list (the host re-ran `start-share`, resetting the
list) disconnects — the room table is untouched and nothing is sent. -/
theorem viewerDisconnect_correct_witness :
    (lookupA (stepEvent
      { conns := [("A", { roomId := some "r", isHost := true, joined := ["r"] }),
                  ("C", { roomId := some "r", isHost := false, joined := ["r"] })],
        rooms := [("r", { hostId := "A", viewers := ["C"] })] }
      (.disconnect "C")).1.rooms "r" = some { hostId := "A", viewers := [] } ∧
    (stepEvent
      { conns := [("A", { roomId := some "r", isHost := true, joined := ["r"] }),
                  ("C", { roomId := some "r", isHost := false, joined := ["r"] })],
        rooms := [("r", { hostId := "A", viewers := ["C"] })] }
      (.disconnect "C")).2 =
      [Output.send "A" "viewer-left" (.viewerIdP "C")]) ∧
    (stepEvent
      { conns := [("A", { roomId := some "r", isHost := true, joined := ["r"] }),
                  ("C", { roomId := some "r", isHost := false, joined := ["r"] })],
        rooms := [("r", { hostId := "A", viewers := [] })] }
      (.disconnect "C")).1.rooms = [("r", { hostId := "A", viewers := [] })] ∧
    (stepEvent
      { conns := [("A", { roomId := some "r", isHost := true, joined := ["r"] }),
                  ("C", { roomId := some "r", isHost := false, joined := ["r"] })],
        rooms := [("r", { hostId := "A", viewers := [] })] }
      (.disconnect "C")).2 = [] := by
  constructor
  · have h := (viewerDisconnect_correct
      { conns := [("A", { roomId := some "r", isHost := true, joined := ["r"] }),
                  ("C", { roomId := some "r", isHost := false, joined := ["r"] })],
        rooms := [("r", { hostId := "A", viewers := ["C"] })] }
      "C" "r" { roomId := some "r", isHost := false, joined := ["r"] }
      { hostId := "A", viewers := ["C"] }
      (by decide) rfl (by decide) rfl (by decide)).1 (by decide)
    exact ⟨h.1.trans (by decide), h.2⟩
  · have h := (viewerDisconnect_correct
      { conns := [("A", { roomId := some "r", isHost := true, joined := ["r"] }),
                  ("C", { roomId := some "r", isHost := false, joined := ["r"] })],
        rooms := [("r", { hostId := "A", viewers := [] })] }
      "C" "r" { roomId := some "r", isHost := false, joined := ["r"] }
      { hostId := "A", viewers := [] }
      (by decide) rfl (by decide) rfl (by decide)).2 (by decide)
    exact ⟨h.1.trans (by decide), h.2⟩

/-- Counterexample to C8 as stated: after `S` starts share for room `r` and
then joins `r` as a viewer, `S` is the `hostId` of the existing room
`r = S.roomId`, yet `stop-share` deletes nothing and emits nothing. -/
theorem stopShare_claim_counterexample :
    lookupA (runTrace [Event.connect "S",
      Event.startShare "S" (some { roomId := some "r" }),
      Event.joinView "S" (some { roomId := some "r" })]).rooms "r" =
      some { hostId := "S", viewers := ["S"] } ∧
    (lookupA (runTrace [Event.connect "S",
      Event.startShare "S" (some { roomId := some "r" }),
      Event.joinView "S" (some { roomId := some "r" })]).conns "S").map
        SocketData.roomId = some (some "r") ∧
    stepEvent (runTrace [Event.connect "S",
      Event.startShare "S" (some { roomId := some "r" }),
      Event.joinView "S" (some { roomId := some "r" })]) (.stopShare "S") =
      (runTrace [Event.connect "S",
        Event.startShare "S" (some { roomId := some "r" }),
        Event.joinView "S" (some { roomId := some "r" })], []) := by
  refine ⟨by decide, by decide, by decide⟩

/-- C8 (amended): `stop-share` runs its cleanup — broadcast `host-stopped`
to the room, make each listed viewer leave the Socket.IO room, delete the
room — exactly when the sender's `roomId` names an existing room and its
role flag is `Host`; in every other case it is a silent no-op. -/
theorem stopShare_correct (st : ServerState) (sid : String) (sd : SocketData)
    (hs : lookupA st.conns sid = some sd)
    (hnd : (st.rooms.map Prod.fst).Nodup) :
    (∀ r room, sd.roomId = some r → r ≠ "" → lookupA st.rooms r = some room →
      sd.isHost = true →
      stepEvent st (.stopShare sid) =
        ({ conns := room.viewers.foldl (fun cs v => leaveRoom cs v r) st.conns,
           rooms := eraseA st.rooms r },
         [Output.broadcastTo r none "host-stopped" OutPayload.empty]) ∧
      lookupA (stepEvent st (.stopShare sid)).1.rooms r = none) ∧
    ((¬ ∃ r room, sd.roomId = some r ∧ r ≠ "" ∧ lookupA st.rooms r = some room ∧
        sd.isHost = true) →
      stepEvent st (.stopShare sid) = (st, [])) := by
  constructor
  · intro r room hr hne hrm hh
    have hstep : stepEvent st (.stopShare sid) =
        ({ conns := room.viewers.foldl (fun cs v => leaveRoom cs v r) st.conns,
           rooms := eraseA st.rooms r },
         [Output.broadcastTo r none "host-stopped" OutPayload.empty]) := by
      simp [stepEvent, handleStopShare, hs, hr, hne, hrm, hh]
    refine ⟨hstep, ?_⟩
    rw [hstep]
    exact lookupA_eraseA_self st.rooms r hnd
  · intro hno
    cases hr : sd.roomId with
    | none => simp [stepEvent, handleStopShare, hs, hr]
    | some r =>
      by_cases hne : r = ""
      · subst hne
        simp [stepEvent, handleStopShare, hs, hr]
      · cases hrm : lookupA st.rooms r with
        | none => simp [stepEvent, handleStopShare, hs, hr, hne, hrm]
        | some room =>
          have hh : sd.isHost = false := by
            by_contra hcon
            exact hno ⟨r, room, hr, hne, hrm,
              eq_true_of_ne_false fun hf => hcon hf⟩
          simp [stepEvent, handleStopShare, hs, hr, hne, hrm, hh]

/-- Witness for C8 (amended): host `H` of room `r` with viewer `V` stops
sharing — `host-stopped` is broadcast, `V` leaves the Socket.IO room, the
room is deleted; the same connection sending `stop-share` again is a no-op. -/
theorem stopShare_correct_witness :
    stepEvent
      { conns := [("H", { roomId := some "r", isHost := true, joined := ["r"] }),
                  ("V", { roomId := some "r", isHost := false, joined := ["r"] })],
        rooms := [("r", { hostId := "H", viewers := ["V"] })] }
      (.stopShare "H") =
      ({ conns := [("H", { roomId := some "r", isHost := true, joined := ["r"] }),
                   ("V", { roomId := some "r", isHost := false, joined := [] })],
         rooms := [] },
       [Output.broadcastTo "r" none "host-stopped" OutPayload.empty]) ∧
    stepEvent
      { conns := [("H", { roomId := some "r", isHost := true, joined := ["r"] }),
                  ("V", { roomId := some "r", isHost := false, joined := [] })],
        rooms := [] } (.stopShare "H") =
      ({ conns := [("H", { roomId := some "r", isHost := true, joined := ["r"] }),
                   ("V", { roomId := some "r", isHost := false, joined := [] })],
         rooms := [] }, []) := by
  constructor
  · have h := (stopShare_correct
      { conns := [("H", { roomId := some "r", isHost := true, joined := ["r"] }),
                  ("V", { roomId := some "r", isHost := false, joined := ["r"] })],
        rooms := [("r", { hostId := "H", viewers := ["V"] })] }
      "H" { roomId := some "r", isHost := true, joined := ["r"] }
      (by decide) (by decide)).1 "r" { hostId := "H", viewers := ["V"] }
      rfl (by decide) (by decide) rfl
    exact h.1.trans (by decide)
  · exact (stopShare_correct
      { conns := [("H", { roomId := some "r", isHost := true, joined := ["r"] }),
                  ("V", { roomId := some "r", isHost := false, joined := [] })],
        rooms := [] }
      "H" { roomId := some "r", isHost := true, joined := ["r"] }
      (by decide) (by decide)).2 (by
        rintro ⟨r, room, hr, hne, hrm, hh⟩
        cases hr
        simp [lookupA] at hrm)

/-- Trace refuting C9: `A` starts share twice under different room ids and
disconnects; `B` stays connected to query availability. -/
def churnTrace : List Event :=
  [Event.connect "A", Event.connect "B",
   Event.startShare "A" (some { roomId := some "r1" }),
   Event.startShare "A" (some { roomId := some "r2" }),
   Event.disconnect "A"]

/-- C9 fails on the code: after `churnTrace`, room `r1` is still in the
table although its host `A` is no longer live, no room has a live host,
and `get-available` reports `count = 1` instead of the number of rooms
with a live host (0). -/
theorem roomLiveness_violation :
    lookupA (runTrace churnTrace).rooms "r1" = some { hostId := "A", viewers := [] } ∧
    lookupA (runTrace churnTrace).conns "A" = none ∧
    liveHostRooms (runTrace churnTrace) = 0 ∧
    (stepEvent (runTrace churnTrace) (.getAvailable "B")).2 =
      [Output.send "B" "available-count" (.countP 1)] := by
  refine ⟨by decide, by decide, by decide, by decide⟩

/-- Trace refuting C10: viewer `C` joins room `r` twice. -/
def doubleJoinTrace : List Event :=
  [Event.connect "A", Event.connect "C",
   Event.startShare "A" (some { roomId := some "r" }),
   Event.joinView "C" (some { roomId := some "r" }),
   Event.joinView "C" (some { roomId := some "r" })]

/-- C10 fails on the code: after `doubleJoinTrace`, room `r`'s viewer list
is `["C", "C"]` — the same connection appears twice. -/
theorem viewerDup_violation :
    lookupA (runTrace doubleJoinTrace).rooms "r" =
      some { hostId := "A", viewers := ["C", "C"] } ∧
    ¬ List.Nodup ["C", "C"] := by
  refine ⟨by decide, by decide⟩
